import Mathlib

/-!
Verification development for the mdns-proxy daemon
(roles/netbsd-mdns/files/mdns-proxy.py): a DNS-to-mDNS bridge that
receives unicast DNS queries, relays queries in the local zone to a
multicast group, rewrites the transaction id of the reply, caches the
first answer record of successful replies, and falls back to the cache
when the multicast wait times out. The embedding below translates the
per-iteration behaviour of the serving loop, the resolution cache, the
cached-response synthesis, the signal handling and the startup logic of
the daemon into executable Lean definitions.
-/

/-- A transport address (host, port), as returned by recvfrom. -/
abbrev Addr := String × Nat

/-- One answer record set, as stored by the cache (response.answer[0]).
The fields carry the owner name, the numeric record type and the data
items; only structural equality of cached records matters here. -/
structure RRset where
  name : String
  rdtype : Nat
  records : List String
deriving DecidableEq, Repr

/-- One entry of the question section of a DNS message: the printed
fully-qualified name (str of question.name, trailing dot) and the raw
numeric record type (question.rdtype). -/
structure Question where
  name : String
  rdtype : Nat
deriving DecidableEq, Repr

/-- A parsed DNS message, keeping the fields the proxy reads and
writes: the 16-bit transaction id, the question section and the answer
section. -/
structure DnsMessage where
  id : Nat
  question : List Question
  answer : List RRset
deriving DecidableEq, Repr

/-- The resolution cache (the module-level dict resolution_cache),
modelled extensionally as a map from key strings to records. -/
def Cache : Type := String → Option RRset

/-- The initial empty cache (resolution_cache starts as an empty dict). -/
def emptyCache : Cache := fun _ => none

/-- Dict assignment: resolution_cache[key] = answer. -/
def cachePut (c : Cache) (k : String) (a : RRset) : Cache :=
  fun x => if x = k then some a else c x

/-- Dict lookup: resolution_cache[key] when present, absence otherwise
(the code guards lookups with a membership test). -/
def cacheGet (c : Cache) (k : String) : Option RRset := c k

/-- The cache key string built by the code on both the write path
(line 173) and the read path (line 73): the f-string of the question
name, a colon and the numeric question type. -/
def cacheKey (qname : String) (rdtype : Nat) : String :=
  qname ++ ":" ++ toString rdtype

/-- The str.endswith test of Python (line 155), case-sensitive: the
character sequence of s ends with the character sequence of p. -/
def endswith (s p : String) : Bool :=
  let n := s.data.length
  let m := p.data.length
  if m ≤ n then s.data.drop (n - m) == p.data else false

/-- The dns.message.make_response convention used by
create_cached_response: the synthesized response echoes the query id
and the query question section and starts with an empty answer
section. -/
def make_response (query : DnsMessage) : DnsMessage :=
  { id := query.id, question := query.question, answer := [] }

/-- create_cached_response (lines 64-88): read the first question,
look the key up in the cache; on a miss return None; on a hit build a
make_response message and append the cached answer to its answer
section. A query with an empty question section raises IndexError,
which the except branch turns into None. -/
def create_cached_response (cache : Cache) (query : DnsMessage) : Option DnsMessage :=
  match query.question with
  | [] => none
  | q :: _ =>
    match cacheGet cache (cacheKey q.name q.rdtype) with
    | none => none
    | some a =>
      let response := make_response query
      some { response with answer := response.answer ++ [a] }

/-- Outcome of the multicast wait of one iteration (lines 163-196):
either a datagram arrives and parses as a message, or recvfrom times
out, or recv or parsing raises some other error. -/
inductive MdnsEvent where
  | reply (r : DnsMessage)
  | timeout
  | recvError
deriving DecidableEq, Repr

/-- Input of one iteration of the serving loop: the unicast recvfrom
times out; or a datagram arrives that fails to parse; or a datagram
arrives that parses to a query, together with the outcome of the
multicast side; or some other unexpected error is raised inside the
try body. -/
inductive IterInput where
  | sockTimeout
  | parseFail (d : List Nat) (addr : Addr)
  | query (d : List Nat) (q : DnsMessage) (addr : Addr) (mev : MdnsEvent)
  | otherError
deriving DecidableEq, Repr

/-- Observable effects of one iteration: the raw datagrams forwarded
to the multicast group, the messages sent back on the unicast socket
with their destination, the cache after the iteration, and the log
lines emitted. -/
structure IterOut where
  mcast : List (List Nat)
  sent : List (DnsMessage × Addr)
  cache : Cache
  logs : List String

/-- The timeout and receive-error branches (lines 179-196): attempt
create_cached_response; on a hit send the synthesized response to the
requester, on a miss send nothing. The raw query datagram was already
forwarded to multicast before the wait. -/
def handleFallback (cache : Cache) (d : List Nat) (q : DnsMessage) (qq : Question)
    (addr : Addr) : IterOut :=
  match create_cached_response cache q with
  | some resp =>
    { mcast := [d], sent := [(resp, addr)], cache := cache,
      logs := ["No mDNS reply received for " ++ qq.name,
               "Sent cached response for " ++ qq.name] }
  | none =>
    { mcast := [d], sent := [], cache := cache,
      logs := ["No mDNS reply received for " ++ qq.name,
               "No cached response available for " ++ qq.name] }

/-- The multicast wait and its three outcomes (lines 159-196), after
the raw datagram d was forwarded. Success path: overwrite the reply id
with the query id; if the reply has at least one answer record, store
the first answer record under the key built from the first question of
the query; send the rewritten reply to the requester. Timeout and
receive-error paths fall back to the cache. -/
def handleMdns (cache : Cache) (d : List Nat) (q : DnsMessage) (qq : Question)
    (addr : Addr) (mev : MdnsEvent) : IterOut :=
  match mev with
  | MdnsEvent.reply r =>
    let response : DnsMessage := { r with id := q.id }
    match response.answer with
    | [] =>
      { mcast := [d], sent := [(response, addr)], cache := cache,
        logs := ["Sent mDNS response for " ++ qq.name] }
    | a :: _ =>
      { mcast := [d], sent := [(response, addr)],
        cache := cachePut cache (cacheKey qq.name qq.rdtype) a,
        logs := ["Cached resolution for " ++ qq.name,
                 "Sent mDNS response for " ++ qq.name] }
  | MdnsEvent.timeout => handleFallback cache d q qq addr
  | MdnsEvent.recvError => handleFallback cache d q qq addr

/-- One iteration of the serving loop body (lines 142-202). A socket
timeout just re-checks the flag; a datagram that fails to parse is
caught by the outer except and logged; a query with an empty question
section is skipped by continue; a query whose first question name does
not end with the literal suffix .local. is ignored; otherwise the raw
datagram is forwarded to multicast and the multicast outcome is
handled; any other unexpected error is caught by the outer except and
logged. -/
def stepIter (cache : Cache) (inp : IterInput) : IterOut :=
  match inp with
  | IterInput.sockTimeout =>
    { mcast := [], sent := [], cache := cache, logs := [] }
  | IterInput.parseFail _ _ =>
    { mcast := [], sent := [], cache := cache, logs := ["Error processing request"] }
  | IterInput.otherError =>
    { mcast := [], sent := [], cache := cache, logs := ["Error processing request"] }
  | IterInput.query d q addr mev =>
    match q.question with
    | [] => { mcast := [], sent := [], cache := cache, logs := [] }
    | qq :: _ =>
      if endswith qq.name ".local." then
        handleMdns cache d q qq addr mev
      else
        { mcast := [], sent := [], cache := cache,
          logs := ["Query for " ++ qq.name, "Non-local query, ignoring"] }

/-- State observed by the serving loop: the process-wide shutdown flag
and the resolution cache. -/
structure LoopState where
  shutdown : Bool
  cache : Cache

/-- signal_handler (lines 39-43): set the global shutdown flag and log
which signal number was received. -/
def signal_handler (st : LoopState) (signum : Nat) : LoopState × String :=
  ({ st with shutdown := true },
   "Received signal " ++ toString signum ++ ", shutting down gracefully")

/-- An event at an iteration boundary of the loop: either a signal is
delivered (running the handler) or the iteration body runs on an
input. -/
inductive LoopEvent where
  | sig (signum : Nat)
  | io (inp : IterInput)

/-- The serving loop of run_proxy (while not shutdown_flag, lines
141-202) over a finite schedule of boundary events: a delivered signal
updates the state through the handler; an io event is processed by one
iteration only when the shutdown flag is still clear, and once the
flag is set the loop starts no further iteration. Returns the final
state and the outputs of the iterations that ran. -/
def runLoop (st : LoopState) : List LoopEvent → LoopState × List IterOut
  | [] => (st, [])
  | LoopEvent.sig n :: rest => runLoop (signal_handler st n).1 rest
  | LoopEvent.io inp :: rest =>
    if st.shutdown then (st, [])
    else
      let out := stepIter st.cache inp
      let p := runLoop { st with cache := out.cache } rest
      (p.1, out :: p.2)

/-- Signal numbers used by main. -/
def SIGHUP : Nat := 1

/-- SIGINT signal number. -/
def SIGINT : Nat := 2

/-- SIGTERM signal number. -/
def SIGTERM : Nat := 15

/-- Observable startup and shutdown actions of main, in order. -/
inductive StartAction where
  | removeStale
  | exitNonZero
  | daemonizeAct
  | createPid
  | installHandler (signum : Nat)
  | runProxyAct
  | removePid
deriving DecidableEq, Repr

/-- The daemon-mode action sequence after the PID-file guard (lines
256-270): daemonize, create the PID file, install the SIGTERM, SIGINT
and SIGHUP handlers, run the proxy loop, and in the finally block
remove the PID file. -/
def proceedDaemon : List StartAction :=
  [StartAction.daemonizeAct, StartAction.createPid,
   StartAction.installHandler SIGTERM, StartAction.installHandler SIGINT,
   StartAction.installHandler SIGHUP, StartAction.runProxyAct,
   StartAction.removePid]

/-- Environment observed by the daemon-mode startup: whether a PID
file exists at the configured path, the process id parsed from it
(absence models unreadable or non-numeric content, the ValueError and
IOError branch), and whether a given process id is alive (whether
os.kill pid 0 succeeds). -/
structure StartEnv where
  pidFileExists : Bool
  pidFileContent : Option Nat
  alive : Nat → Bool

/-- Daemon-mode startup (lines 236-270): when a PID file exists, read
it; a readable live process id exits non-zero at once, before
daemonizing, binding or serving; a readable dead process id, or
unreadable content, removes the stale file and proceeds with the
normal daemon sequence. Without a PID file the normal sequence runs
directly. -/
def mainDaemon (env : StartEnv) : List StartAction :=
  if env.pidFileExists then
    match env.pidFileContent with
    | some oldPid =>
      if env.alive oldPid then [StartAction.exitNonZero]
      else StartAction.removeStale :: proceedDaemon
    | none => StartAction.removeStale :: proceedDaemon
  else proceedDaemon

/-- Foreground-mode startup (lines 271-282): install only the SIGTERM
and SIGINT handlers, then run the proxy loop; no PID file is checked,
created or removed. -/
def mainForeground : List StartAction :=
  [StartAction.installHandler SIGTERM, StartAction.installHandler SIGINT,
   StartAction.runProxyAct]

/-- The signal numbers for which main installs signal_handler, by
mode: daemon mode installs SIGTERM, SIGINT and SIGHUP (lines 262-264),
foreground mode installs only SIGTERM and SIGINT (lines 276-277). -/
def installedHandlers (daemon : Bool) : List Nat :=
  if daemon then [SIGTERM, SIGINT, SIGHUP] else [SIGTERM, SIGINT]

/-- Concrete query question used by witnesses. -/
def qnA : Question := { name := "cam1.local.", rdtype := 1 }

/-- Concrete query message used by witnesses. -/
def msgQ1 : DnsMessage := { id := 4660, question := [qnA], answer := [] }

/-- Concrete cached answer record used by witnesses. -/
def ansA : RRset := { name := "cam1.local.", rdtype := 1, records := ["10.0.0.42"] }

/-- Concrete multicast reply used by witnesses; its id differs from
the id of msgQ1 and its question section is unrelated. -/
def msgR1 : DnsMessage :=
  { id := 999, question := [{ name := "other.local.", rdtype := 12 }], answer := [ansA] }

/-- C2: for every .local. query that receives a multicast reply before
the timeout, the message sent back to the unicast requester is the
reply with its transaction id overwritten by the id of the original
query, whatever id the mDNS responder assigned. -/
theorem claim_C2 (c : Cache) (d : List Nat) (q r : DnsMessage) (qq : Question)
    (t : List Question) (addr : Addr)
    (h : q.question = qq :: t) (hl : endswith qq.name ".local." = true) :
    (stepIter c (IterInput.query d q addr (MdnsEvent.reply r))).sent
      = [({ r with id := q.id }, addr)] := by
  cases hr : r.answer with
  | nil => simp [stepIter, handleMdns, h, hl, hr]
  | cons a ra => simp [stepIter, handleMdns, h, hl, hr]

/-- C2 witness at a concrete query and a reply carrying a different
transaction id. -/
theorem claim_C2_witness :
    (stepIter emptyCache (IterInput.query [1, 2] msgQ1 ("10.0.0.5", 40000)
        (MdnsEvent.reply msgR1))).sent
      = [({ msgR1 with id := msgQ1.id }, ("10.0.0.5", 40000))] :=
  claim_C2 emptyCache [1, 2] msgQ1 msgR1 qnA [] ("10.0.0.5", 40000) rfl (by decide)

/-- C3: a query whose first question name does not end with the
literal suffix .local. produces no multicast traffic, no reply to the
requester and no cache change, and the loop goes on to process the
subsequent events. -/
theorem claim_C3 (c : Cache) (d : List Nat) (q : DnsMessage) (qq : Question)
    (t : List Question) (addr : Addr) (mev : MdnsEvent) (rest : List LoopEvent)
    (h : q.question = qq :: t) (hl : endswith qq.name ".local." = false) :
    (stepIter c (IterInput.query d q addr mev)).mcast = [] ∧
    (stepIter c (IterInput.query d q addr mev)).sent = [] ∧
    (stepIter c (IterInput.query d q addr mev)).cache = c ∧
    runLoop ⟨false, c⟩ (LoopEvent.io (IterInput.query d q addr mev) :: rest)
      = ((runLoop ⟨false, c⟩ rest).1,
         stepIter c (IterInput.query d q addr mev) :: (runLoop ⟨false, c⟩ rest).2) := by
  refine ⟨?_, ?_, ?_, ?_⟩ <;> simp [runLoop, stepIter, h, hl]

/-- C3 witness at a concrete non-local query. -/
theorem claim_C3_witness :
    (stepIter emptyCache (IterInput.query [9]
        { id := 7, question := [{ name := "example.com.", rdtype := 1 }], answer := [] }
        ("127.0.0.1", 5000) MdnsEvent.timeout)).mcast = [] ∧
    (stepIter emptyCache (IterInput.query [9]
        { id := 7, question := [{ name := "example.com.", rdtype := 1 }], answer := [] }
        ("127.0.0.1", 5000) MdnsEvent.timeout)).sent = [] ∧
    (stepIter emptyCache (IterInput.query [9]
        { id := 7, question := [{ name := "example.com.", rdtype := 1 }], answer := [] }
        ("127.0.0.1", 5000) MdnsEvent.timeout)).cache = emptyCache ∧
    runLoop ⟨false, emptyCache⟩ (LoopEvent.io (IterInput.query [9]
        { id := 7, question := [{ name := "example.com.", rdtype := 1 }], answer := [] }
        ("127.0.0.1", 5000) MdnsEvent.timeout) :: [])
      = ((runLoop ⟨false, emptyCache⟩ []).1,
         stepIter emptyCache (IterInput.query [9]
           { id := 7, question := [{ name := "example.com.", rdtype := 1 }], answer := [] }
           ("127.0.0.1", 5000) MdnsEvent.timeout) :: (runLoop ⟨false, emptyCache⟩ []).2) :=
  claim_C3 emptyCache [9]
    { id := 7, question := [{ name := "example.com.", rdtype := 1 }], answer := [] }
    { name := "example.com.", rdtype := 1 } [] ("127.0.0.1", 5000) MdnsEvent.timeout []
    rfl (by decide)

/-- C4: a .local. query whose cache key has no entry and whose
multicast wait times out sends nothing at all back to the requester,
neither an empty response nor an error response. -/
theorem claim_C4 (c : Cache) (d : List Nat) (q : DnsMessage) (qq : Question)
    (t : List Question) (addr : Addr)
    (h : q.question = qq :: t) (hl : endswith qq.name ".local." = true)
    (hm : cacheGet c (cacheKey qq.name qq.rdtype) = none) :
    (stepIter c (IterInput.query d q addr MdnsEvent.timeout)).sent = [] := by
  simp [stepIter, handleMdns, handleFallback, create_cached_response, h, hl, hm]

/-- C4 witness: empty cache, concrete .local. query, multicast
timeout. -/
theorem claim_C4_witness :
    (stepIter emptyCache (IterInput.query [1, 2] msgQ1 ("10.0.0.5", 40000)
        MdnsEvent.timeout)).sent = [] :=
  claim_C4 emptyCache [1, 2] msgQ1 qnA [] ("10.0.0.5", 40000) rfl (by decide) rfl

/-- C9: the success path performs no correlation check: whatever
message arrives first on the multicast socket is treated as the reply.
Nothing below relates the reply r to the query q — no hypothesis links
their transaction ids, question sections or origins — yet the reply is
sent to the requester with the id rewritten and its first answer
record is cached under the key of the current query. -/
theorem claim_C9 (c : Cache) (d : List Nat) (q r : DnsMessage) (qq : Question)
    (t : List Question) (addr : Addr) (a : RRset) (ra : List RRset)
    (h : q.question = qq :: t) (hl : endswith qq.name ".local." = true)
    (hr : r.answer = a :: ra) :
    (stepIter c (IterInput.query d q addr (MdnsEvent.reply r))).sent
      = [({ r with id := q.id }, addr)] ∧
    cacheGet (stepIter c (IterInput.query d q addr (MdnsEvent.reply r))).cache
        (cacheKey qq.name qq.rdtype) = some a := by
  constructor
  · simp [stepIter, handleMdns, h, hl, hr]
  · simp [stepIter, handleMdns, h, hl, hr, cacheGet, cachePut]

/-- C9 witness: the reply msgR1 has a different id and an unrelated
question section, and is still sent and cached under the key of
msgQ1. -/
theorem claim_C9_witness :
    (stepIter emptyCache (IterInput.query [1, 2] msgQ1 ("10.0.0.5", 40000)
        (MdnsEvent.reply msgR1))).sent
      = [({ msgR1 with id := msgQ1.id }, ("10.0.0.5", 40000))] ∧
    cacheGet (stepIter emptyCache (IterInput.query [1, 2] msgQ1 ("10.0.0.5", 40000)
        (MdnsEvent.reply msgR1))).cache (cacheKey qnA.name qnA.rdtype) = some ansA :=
  claim_C9 emptyCache [1, 2] msgQ1 msgR1 qnA [] ("10.0.0.5", 40000) ansA []
    rfl (by decide) rfl

/-- C10: a multicast reply that arrives in time with zero answer
records is still sent to the requester with the transaction id
rewritten, and the cache is left completely unchanged; only the
caching step is conditional on a nonempty answer section, not the
send. -/
theorem claim_C10 (c : Cache) (d : List Nat) (q r : DnsMessage) (qq : Question)
    (t : List Question) (addr : Addr)
    (h : q.question = qq :: t) (hl : endswith qq.name ".local." = true)
    (hr : r.answer = []) :
    (stepIter c (IterInput.query d q addr (MdnsEvent.reply r))).sent
      = [({ r with id := q.id }, addr)] ∧
    (stepIter c (IterInput.query d q addr (MdnsEvent.reply r))).cache = c := by
  constructor <;> simp [stepIter, handleMdns, h, hl, hr]

/-- C10 witness: an answerless reply with a mismatched id is sent with
the id of the query and the cache stays empty. -/
theorem claim_C10_witness :
    (stepIter emptyCache (IterInput.query [1, 2] msgQ1 ("10.0.0.5", 40000)
        (MdnsEvent.reply { id := 999, question := [], answer := [] }))).sent
      = [({ id := msgQ1.id, question := [], answer := [] }, ("10.0.0.5", 40000))] ∧
    (stepIter emptyCache (IterInput.query [1, 2] msgQ1 ("10.0.0.5", 40000)
        (MdnsEvent.reply { id := 999, question := [], answer := [] }))).cache
      = emptyCache :=
  claim_C10 emptyCache [1, 2] msgQ1 { id := 999, question := [], answer := [] } qnA []
    ("10.0.0.5", 40000) rfl (by decide) rfl

/-- Second concrete query for the same key as msgQ1 but a different
transaction id, used by the C1 witness. -/
def msgQ2 : DnsMessage := { id := 17, question := [qnA], answer := [] }

/-- C1: after a successful resolution stored under key K, a later
query for K whose multicast wait times out is answered from the cache:
the requester receives a synthesized message carrying the id and the
question section of the current query, with the previously cached
answer record appended to its answer section. -/
theorem claim_C1 (c : Cache) (d1 d2 : List Nat) (q1 q2 r : DnsMessage)
    (qq1 qq2 : Question) (t1 t2 : List Question) (a : RRset) (ra : List RRset)
    (addr1 addr2 : Addr)
    (h1 : q1.question = qq1 :: t1) (h2 : q2.question = qq2 :: t2)
    (hk : cacheKey qq1.name qq1.rdtype = cacheKey qq2.name qq2.rdtype)
    (hl1 : endswith qq1.name ".local." = true)
    (hl2 : endswith qq2.name ".local." = true)
    (hr : r.answer = a :: ra) :
    (stepIter (stepIter c (IterInput.query d1 q1 addr1 (MdnsEvent.reply r))).cache
        (IterInput.query d2 q2 addr2 MdnsEvent.timeout)).sent
      = [({ id := q2.id, question := q2.question, answer := [a] }, addr2)] := by
  simp [stepIter, handleMdns, handleFallback, create_cached_response, make_response,
        cacheGet, cachePut, h1, h2, hl1, hl2, hr, hk]

/-- C1 witness: resolve cam1.local. type A successfully, then answer a
second query with another transaction id for the same key from the
cache after a multicast timeout. -/
theorem claim_C1_witness :
    (stepIter (stepIter emptyCache (IterInput.query [1] msgQ1 ("10.0.0.5", 40000)
          (MdnsEvent.reply msgR1))).cache
        (IterInput.query [2] msgQ2 ("10.0.0.5", 40001) MdnsEvent.timeout)).sent
      = [({ id := msgQ2.id, question := msgQ2.question, answer := [ansA] },
          ("10.0.0.5", 40001))] :=
  claim_C1 emptyCache [1] [2] msgQ1 msgQ2 msgR1 qnA qnA [] [] ansA []
    ("10.0.0.5", 40000) ("10.0.0.5", 40001) rfl rfl rfl (by decide) (by decide) rfl

/-- C5: the cache is strictly last-write-wins with at most one entry
per key: storing a1 then a2 under the same key makes a lookup return
a2, the double store is extensionally the single store of a2 (so a1 is
no longer retrievable from the state at all), and a store changes the
lookup result exactly at its own key, every other key reading as
before — the lookup itself produces no state change by construction. -/
theorem claim_C5 (c : Cache) (k k2 : String) (a1 a2 : RRset) :
    cacheGet (cachePut (cachePut c k a1) k a2) k = some a2 ∧
    cachePut (cachePut c k a1) k a2 = cachePut c k a2 ∧
    cacheGet (cachePut c k a1) k2 = (if k2 = k then some a1 else cacheGet c k2) := by
  refine ⟨by simp [cacheGet, cachePut], ?_, by simp [cacheGet, cachePut]⟩
  funext x
  by_cases hx : x = k <;> simp [cachePut, hx]

/-- C6: a datagram that fails to parse and a message with zero
questions each produce no reply, no multicast traffic and no cache
change; an unexpected error inside an iteration is caught and logged;
and in each of these cases the serving loop continues with the
subsequent events. -/
theorem claim_C6 (c : Cache) (d : List Nat) (addr : Addr) (q : DnsMessage)
    (mev : MdnsEvent) (rest : List LoopEvent)
    (hq : q.question = []) :
    stepIter c (IterInput.parseFail d addr)
      = { mcast := [], sent := [], cache := c, logs := ["Error processing request"] } ∧
    stepIter c (IterInput.query d q addr mev)
      = { mcast := [], sent := [], cache := c, logs := [] } ∧
    stepIter c IterInput.otherError
      = { mcast := [], sent := [], cache := c, logs := ["Error processing request"] } ∧
    runLoop ⟨false, c⟩ (LoopEvent.io (IterInput.parseFail d addr) :: rest)
      = ((runLoop ⟨false, c⟩ rest).1,
         stepIter c (IterInput.parseFail d addr) :: (runLoop ⟨false, c⟩ rest).2) ∧
    runLoop ⟨false, c⟩ (LoopEvent.io IterInput.otherError :: rest)
      = ((runLoop ⟨false, c⟩ rest).1,
         stepIter c IterInput.otherError :: (runLoop ⟨false, c⟩ rest).2) ∧
    runLoop ⟨false, c⟩ (LoopEvent.io (IterInput.query d q addr mev) :: rest)
      = ((runLoop ⟨false, c⟩ rest).1,
         stepIter c (IterInput.query d q addr mev) :: (runLoop ⟨false, c⟩ rest).2) := by
  refine ⟨?_, ?_, ?_, ?_, ?_, ?_⟩ <;> simp [runLoop, stepIter, hq]

/-- C6 witness at an unparsable datagram, a zero-question message and
an unexpected error, each followed by a continuing loop. -/
theorem claim_C6_witness :
    stepIter emptyCache (IterInput.parseFail [0] ("127.0.0.1", 1))
      = { mcast := [], sent := [], cache := emptyCache,
          logs := ["Error processing request"] } ∧
    stepIter emptyCache
        (IterInput.query [0] { id := 3, question := [], answer := [] }
          ("127.0.0.1", 1) MdnsEvent.timeout)
      = { mcast := [], sent := [], cache := emptyCache, logs := [] } ∧
    stepIter emptyCache IterInput.otherError
      = { mcast := [], sent := [], cache := emptyCache,
          logs := ["Error processing request"] } ∧
    runLoop ⟨false, emptyCache⟩ (LoopEvent.io (IterInput.parseFail [0] ("127.0.0.1", 1)) :: [])
      = ((runLoop ⟨false, emptyCache⟩ []).1,
         stepIter emptyCache (IterInput.parseFail [0] ("127.0.0.1", 1))
           :: (runLoop ⟨false, emptyCache⟩ []).2) ∧
    runLoop ⟨false, emptyCache⟩ (LoopEvent.io IterInput.otherError :: [])
      = ((runLoop ⟨false, emptyCache⟩ []).1,
         stepIter emptyCache IterInput.otherError :: (runLoop ⟨false, emptyCache⟩ []).2) ∧
    runLoop ⟨false, emptyCache⟩ (LoopEvent.io (IterInput.query [0]
        { id := 3, question := [], answer := [] } ("127.0.0.1", 1) MdnsEvent.timeout) :: [])
      = ((runLoop ⟨false, emptyCache⟩ []).1,
         stepIter emptyCache (IterInput.query [0]
           { id := 3, question := [], answer := [] } ("127.0.0.1", 1) MdnsEvent.timeout)
           :: (runLoop ⟨false, emptyCache⟩ []).2) :=
  claim_C6 emptyCache [0] ("127.0.0.1", 1) { id := 3, question := [], answer := [] }
    MdnsEvent.timeout [] rfl

/-- C7: daemon-mode startup with an existing PID file: a readable
process id that is alive makes startup exit non-zero at once, with no
daemonization and no serving (so no bind); a readable process id that
is not alive, or unreadable content, removes the stale file and runs
the normal startup sequence. -/
theorem claim_C7 (env : StartEnv) (pid : Nat)
    (hex : env.pidFileExists = true) :
    (env.pidFileContent = some pid → env.alive pid = true →
      mainDaemon env = [StartAction.exitNonZero] ∧
      StartAction.daemonizeAct ∉ mainDaemon env ∧
      StartAction.runProxyAct ∉ mainDaemon env) ∧
    (env.pidFileContent = some pid → env.alive pid = false →
      mainDaemon env = StartAction.removeStale :: proceedDaemon) ∧
    (env.pidFileContent = none →
      mainDaemon env = StartAction.removeStale :: proceedDaemon) := by
  refine ⟨fun hc ha => ?_, fun hc ha => ?_, fun hc => ?_⟩
  · simp [mainDaemon, hex, hc, ha]
  · simp [mainDaemon, hex, hc, ha]
  · simp [mainDaemon, hex, hc]

/-- C7 witness: a PID file recording the live process id 5 makes
daemon-mode startup exit non-zero without daemonizing or serving. -/
theorem claim_C7_witness :
    ((⟨true, some 5, fun _ => true⟩ : StartEnv).pidFileContent = some 5 →
      (⟨true, some 5, fun _ => true⟩ : StartEnv).alive 5 = true →
      mainDaemon ⟨true, some 5, fun _ => true⟩ = [StartAction.exitNonZero] ∧
      StartAction.daemonizeAct ∉ mainDaemon ⟨true, some 5, fun _ => true⟩ ∧
      StartAction.runProxyAct ∉ mainDaemon ⟨true, some 5, fun _ => true⟩) ∧
    ((⟨true, some 5, fun _ => true⟩ : StartEnv).pidFileContent = some 5 →
      (⟨true, some 5, fun _ => true⟩ : StartEnv).alive 5 = false →
      mainDaemon ⟨true, some 5, fun _ => true⟩ = StartAction.removeStale :: proceedDaemon) ∧
    ((⟨true, some 5, fun _ => true⟩ : StartEnv).pidFileContent = none →
      mainDaemon ⟨true, some 5, fun _ => true⟩ = StartAction.removeStale :: proceedDaemon) :=
  claim_C7 ⟨true, some 5, fun _ => true⟩ 5 rfl

/-- C8 counterexample: foreground-mode startup installs no handler for
the hangup signal, so the claim that handlers for termination,
interrupt and hangup are installed fails outside daemon mode. -/
theorem claim_C8_counterexample :
    StartAction.installHandler SIGHUP ∉ mainForeground := by decide

/-- C8 amended: daemon mode installs handlers for SIGTERM, SIGINT and
SIGHUP while foreground mode installs only SIGTERM and SIGINT; the
handler sets the process-wide shutdown flag and logs which signal
number was received; once the flag is set the serving loop starts no
new iteration, and a signal delivered at an iteration boundary stops
the loop before the very next input; daemon mode removes the PID file
on exit. -/
theorem claim_C8_amended (st : LoopState) (c : Cache) (n : Nat) (inp : IterInput)
    (evs : List LoopEvent) (hsd : st.shutdown = true) :
    installedHandlers true = [SIGTERM, SIGINT, SIGHUP] ∧
    installedHandlers false = [SIGTERM, SIGINT] ∧
    StartAction.installHandler SIGTERM ∈ proceedDaemon ∧
    StartAction.installHandler SIGINT ∈ proceedDaemon ∧
    StartAction.installHandler SIGHUP ∈ proceedDaemon ∧
    StartAction.installHandler SIGTERM ∈ mainForeground ∧
    StartAction.installHandler SIGINT ∈ mainForeground ∧
    StartAction.installHandler SIGHUP ∉ mainForeground ∧
    (signal_handler st n).1.shutdown = true ∧
    (signal_handler st n).2
      = "Received signal " ++ toString n ++ ", shutting down gracefully" ∧
    runLoop st (LoopEvent.io inp :: evs) = (st, []) ∧
    runLoop ⟨false, c⟩ (LoopEvent.sig n :: LoopEvent.io inp :: evs)
      = (⟨true, c⟩, []) ∧
    StartAction.removePid ∈ proceedDaemon := by
  refine ⟨by decide, by decide, by decide, by decide, by decide, by decide, by decide,
    by decide, rfl, rfl, ?_, ?_, by decide⟩
  · simp [runLoop, hsd]
  · simp [runLoop, signal_handler]

/-- C8 amended witness at the SIGTERM signal number, a shut-down loop
state and a one-event schedule. -/
theorem claim_C8_amended_witness :
    installedHandlers true = [SIGTERM, SIGINT, SIGHUP] ∧
    installedHandlers false = [SIGTERM, SIGINT] ∧
    StartAction.installHandler SIGTERM ∈ proceedDaemon ∧
    StartAction.installHandler SIGINT ∈ proceedDaemon ∧
    StartAction.installHandler SIGHUP ∈ proceedDaemon ∧
    StartAction.installHandler SIGTERM ∈ mainForeground ∧
    StartAction.installHandler SIGINT ∈ mainForeground ∧
    StartAction.installHandler SIGHUP ∉ mainForeground ∧
    (signal_handler ⟨true, emptyCache⟩ 15).1.shutdown = true ∧
    (signal_handler ⟨true, emptyCache⟩ 15).2
      = "Received signal " ++ toString 15 ++ ", shutting down gracefully" ∧
    runLoop ⟨true, emptyCache⟩ (LoopEvent.io IterInput.sockTimeout :: [])
      = (⟨true, emptyCache⟩, []) ∧
    runLoop ⟨false, emptyCache⟩
        (LoopEvent.sig 15 :: LoopEvent.io IterInput.sockTimeout :: [])
      = (⟨true, emptyCache⟩, []) ∧
    StartAction.removePid ∈ proceedDaemon :=
  claim_C8_amended ⟨true, emptyCache⟩ emptyCache 15 IterInput.sockTimeout [] rfl
